import Mathlib

/-!
# Verification of the csv2latex configuration-driven rendering pipeline

A shallow embedding of the core pipeline of the `csv2latex` repository:
the configuration accessors of `src/csv2latex/config/manager.py` and the
LaTeX table rendering of `src/csv2latex/latex/formatter.py`, together with
theorems settling the specification claims about them.

Python strings are modelled by Lean `String`, but character-level
operations (split, startswith, capitalize, glob matching) are implemented
over `List Char` so that concrete instances evaluate by `decide`.
Python `int` is modelled by `Int`, Python `float` by `ℚ` (the claims under
study concern control flow and exact decimal values, not binary rounding).
-/

namespace Csv2Latex

attribute [local semireducible] Rat.mul Rat.add Rat.sub Rat.inv

/-- A cell value of a pandas dataframe: `int64` cells, `float64` cells, or
text (`object`) cells. -/
inductive Value where
  | vInt (n : Int)
  | vFloat (q : ℚ)
  | vStr (s : String)
deriving Repr, DecidableEq

/-- Python `str.capitalize()`: first character upper-cased, the rest
lower-cased. -/
def pyCapitalize (cs : List Char) : List Char :=
  match cs with
  | [] => []
  | c :: rest => c.toUpper :: rest.map Char.toLower

/-- Python `str.split(sep)` for a single-character separator: splitting the
empty string yields one empty field, and adjacent separators yield empty
fields. -/
def splitChar (sep : Char) : List Char → List (List Char)
  | [] => [[]]
  | x :: xs =>
    let r := splitChar sep xs
    if x == sep then [] :: r
    else
      match r with
      | [] => [[x]]
      | h :: t => (x :: h) :: t

/-- Python `sep.join(words)`. -/
def joinSep (sep : String) : List String → String
  | [] => ""
  | [s] => s
  | s :: rest => s ++ sep ++ joinSep sep rest

/-- Smallest exponent `k ≤ 40` such that `den` divides `10 ^ k`, if any. -/
def decExp (den : Nat) : Option Nat :=
  (List.range 41).find? (fun k => 10 ^ k % den == 0)

/-- Digit string of a natural number (base 10). -/
def natDigits (n : Nat) : String :=
  String.mk (Nat.toDigits 10 n)

/-- Left-pad a digit string with zeros to at least `len` characters. -/
def padZeros (len : Nat) (s : String) : String :=
  if s.data.length < len then
    String.mk (List.replicate (len - s.data.length) '0') ++ s
  else s

/-- Exact decimal rendering of a non-integer rational whose denominator
divides a power of ten (the case of every ordinary Python float literal);
other denominators fall back to a fraction rendering, which no float
reaches. -/
def ratDecimalStr (q : ℚ) : String :=
  match decExp q.den with
  | some k =>
    let m : Nat := q.num.natAbs * (10 ^ k / q.den)
    let s := padZeros (k + 1) (natDigits m)
    let ip := String.mk (s.data.take (s.data.length - k))
    let fp := String.mk (s.data.drop (s.data.length - k))
    (if q.num < 0 then "-" else "") ++ ip ++ "." ++ fp
  | none => natDigits q.num.natAbs ++ "/" ++ natDigits q.den

/-- Python `str(x)` for a float modelled as a rational: integer-valued
floats print with a trailing `.0`, other values print their shortest exact
decimal expansion. -/
def floatStr (q : ℚ) : String :=
  if q.den = 1 then (if q.num < 0 then "-" else "") ++ natDigits q.num.natAbs ++ ".0"
  else ratDecimalStr q

/-- Python `str(value)` on a cell value. -/
def strValue : Value → String
  | .vInt n => (if n < 0 then "-" else "") ++ natDigits n.natAbs
  | .vFloat q => floatStr q
  | .vStr s => s

/-- Truncation of a rational toward zero, Python `int(x)` on a float. -/
def truncRat (q : ℚ) : Int :=
  if 0 ≤ q then ((q.num.toNat / q.den : Nat) : Int)
  else -((((-q.num).toNat / q.den : Nat) : Int))

/-- Python `int(value)` on a numeric cell (text cells are never passed). -/
def Value.truncInt : Value → Int
  | .vInt n => n
  | .vFloat q => truncRat q
  | .vStr _ => 0

/-- Python `isinstance(value, (int, float))`. -/
def Value.isNumeric : Value → Bool
  | .vStr _ => false
  | _ => true

/-- The rational magnitude of a numeric cell. -/
def Value.toRat? : Value → Option ℚ
  | .vInt n => some (mkRat n 1)
  | .vFloat q => some q
  | .vStr _ => none

/-- Floor of a rational as an integer. -/
def ratFloor (q : ℚ) : Int := q.num.fdiv q.den

/-- Round a rational to the nearest integer, ties to even — the rounding
used by Python's fixed-point float formatting. -/
def roundHalfEven (q : ℚ) : Int :=
  let f := ratFloor q
  let r := q - mkRat f 1
  if r < mkRat 1 2 then f
  else if mkRat 1 2 < r then f + 1
  else if f % 2 = 0 then f else f + 1

/-- Python `f"{value:.{d}f}"`: fixed-point rendering with `d` digits after
the decimal point. -/
def fixedDecimal (q : ℚ) (d : Nat) : String :=
  let m := roundHalfEven (q * mkRat (10 ^ d) 1)
  let sign := if q < 0 then "-" else ""
  if d = 0 then sign ++ natDigits m.natAbs
  else
    let s := padZeros (d + 1) (natDigits m.natAbs)
    sign ++ String.mk (s.data.take (s.data.length - d)) ++ "." ++
      String.mk (s.data.drop (s.data.length - d))

/-- Membership of a character in a glob bracket expression, with `a-b`
ranges; a trailing `-` is literal. -/
def classMatches (c : Char) : List Char → Bool
  | a :: '-' :: b :: rest => (a ≤ c && c ≤ b) || classMatches c rest
  | a :: rest => (c == a) || classMatches c rest
  | [] => false

/-- Split a glob bracket expression at its closing `]`; a `]` in first
position is literal, as in `fnmatch`. Returns the expression body and the
remaining pattern, or `none` when the bracket is unterminated. -/
def splitClassAux (acc : List Char) : List Char → Option (List Char × List Char)
  | [] => none
  | ']' :: rest => some (acc.reverse, rest)
  | c :: rest => splitClassAux (c :: acc) rest

/-- Parse the body that follows `[` in a glob pattern: returns the
negation flag, the bracket body, and the rest of the pattern. -/
def parseClass (ps : List Char) : Option (Bool × List Char × List Char) :=
  match ps with
  | '!' :: ']' :: rest => (splitClassAux [']'] rest).map (fun p => (true, p.1, p.2))
  | '!' :: rest => (splitClassAux [] rest).map (fun p => (true, p.1, p.2))
  | ']' :: rest => (splitClassAux [']'] rest).map (fun p => (false, p.1, p.2))
  | rest => (splitClassAux [] rest).map (fun p => (false, p.1, p.2))

/-- Shell-glob matching, fuelled: every recursive call shortens the
pattern or the text, so any fuel above their combined length is never
exhausted. `*` matches any run, `?` any single character, `[...]`/`[!...]`
character classes; an unterminated `[` is literal. -/
def globMatchFuel : Nat → List Char → List Char → Bool
  | 0, _, _ => false
  | _ + 1, [], [] => true
  | _ + 1, [], _ :: _ => false
  | fuel + 1, '*' :: ps, t =>
    globMatchFuel fuel ps t ||
      (match t with
       | [] => false
       | _ :: ts => globMatchFuel fuel ('*' :: ps) ts)
  | fuel + 1, '?' :: ps, t =>
    (match t with
     | [] => false
     | _ :: ts => globMatchFuel fuel ps ts)
  | fuel + 1, '[' :: ps, t =>
    (match parseClass ps with
     | some (neg, cls, rest) =>
       (match t with
        | [] => false
        | c :: ts => (classMatches c cls != neg) && globMatchFuel fuel rest ts)
     | none =>
       match t with
       | '[' :: ts => globMatchFuel fuel ps ts
       | _ => false)
  | fuel + 1, p :: ps, t =>
    (match t with
     | c :: ts => p == c && globMatchFuel fuel ps ts
     | [] => false)

/-- Shell-glob matching as performed by Python's `fnmatch.fnmatch` on a
case-sensitive platform. -/
def globMatch (p t : List Char) : Bool :=
  globMatchFuel (p.length + t.length + 1) p t

/-- `ConfigManager._matches_pattern`: `fnmatch.fnmatch(value, pattern)`. -/
def matches_pattern (value pattern : String) : Bool :=
  globMatch pattern.data value.data

/-- One entry of the `extra_columns` configuration list. -/
structure ExtraColumn where
  position : Nat
  display_name : String
  value : String
deriving Repr, DecidableEq

/-- The resolved `row_sorting` configuration dictionary: whether the
`sort_orders` key is present (and its value), and whether any other key
makes the dictionary non-empty. -/
structure RowSorting where
  sort_orders : Option (List (String × List (String × Int)))
  hasOtherKeys : Bool
deriving Repr, DecidableEq

/-- Python truthiness of the `row_sorting` dictionary. -/
def RowSorting.truthy (rs : RowSorting) : Bool :=
  rs.sort_orders.isSome || rs.hasOtherKeys

/-- The resolved `row_filtering` configuration dictionary. -/
structure RowFiltering where
  exclude_values : Option (List (String × List String))
  exclude_from_calculations : Option (List (String × List String))
  hasOtherKeys : Bool
deriving Repr, DecidableEq

/-- Python truthiness of the `row_filtering` dictionary. -/
def RowFiltering.truthy (rf : RowFiltering) : Bool :=
  rf.exclude_values.isSome || rf.exclude_from_calculations.isSome || rf.hasOtherKeys

/-- The state of `ConfigManager` after loading: every field holds the
resolved value of `_get_config_value` for its key, with the structure
defaults mirroring the hard-coded default configuration of
`_load_default_config`.  `user_underline_min_values` keeps the two-layer
resolution visible: `none` means the key is absent from the user file (so
the hard-coded default `False` applies), `some none` means the user file
maps it to null, `some (some b)` means the user file maps it to `b`. -/
structure ConfigManager where
  display_names : List (String × String) := []
  column_formats : List (String × String) := []
  user_underline_min_values : Option (Option Bool) := none
  column_underline : List (String × Bool) := [("default", false)]
  model_order : List (String × Int) := []
  latex_model_names : List (String × String) := []
  ignored_models_in_calculation : List String := []
  model_patterns : Option (List (String × String)) := some []
  row_sorting : RowSorting := ⟨some [], true⟩
  value_replacements : List (String × List (String × String)) := []
  row_filtering : RowFiltering := ⟨some [], some [], false⟩
  pattern_formatting : List (String × Option (List (String × String))) := []
  extra_columns : List ExtraColumn := []
deriving Repr, DecidableEq

namespace ConfigManager

/-- The `underline_min_values` property: the user value when the key is
present (possibly null), else the hard-coded default `False`. -/
def underline_min_values (cfg : ConfigManager) : Option Bool :=
  match cfg.user_underline_min_values with
  | some v => v
  | none => some false

/-- `ConfigManager.get_model_order`. -/
def get_model_order (cfg : ConfigManager) (v : Value) : Int :=
  (List.lookup (strValue v) cfg.model_order).getD 999999

/-- `ConfigManager.get_pretty_column_name`: explicit display name if
configured, else the prettify fallback.  Note the fallback loop strips
each of the prefixes `data_`, `model_`, `result_` in turn from the
current remainder (there is no `break`). -/
def get_pretty_column_name (cfg : ConfigManager) (col_name : String) : String :=
  match List.lookup col_name cfg.display_names with
  | some s => s
  | none =>
    let stripped := ["data_", "model_", "result_"].foldl
      (fun cur pre =>
        if pre.data.isPrefixOf cur then cur.drop pre.data.length else cur)
      col_name.data
    joinSep " " ((splitChar '_' stripped).map (fun w => String.mk (pyCapitalize w)))

/-- `ConfigManager.get_column_format`. -/
def get_column_format (cfg : ConfigManager) (col_name : String) : Option String :=
  List.lookup col_name cfg.column_formats

/-- `ConfigManager.get_column_underline`: per-column setting first, then
the global `underline_min_values` when it is not null, then the
`default` entry. -/
def get_column_underline (cfg : ConfigManager) (col_name : String) : Bool :=
  match List.lookup col_name cfg.column_underline with
  | some b => b
  | none =>
    match cfg.underline_min_values with
    | some b => b
    | none => (List.lookup "default" cfg.column_underline).getD false

/-- `ConfigManager.get_sort_order`. -/
def get_sort_order (cfg : ConfigManager) (col_name : String) (v : Value) : Int :=
  let genl : Option Int :=
    if cfg.row_sorting.truthy then
      match cfg.row_sorting.sort_orders with
      | some so =>
        match List.lookup col_name so with
        | some m => some ((List.lookup (strValue v) m).getD 999999)
        | none => none
      | none => none
    else none
  match genl with
  | some r => r
  | none => if col_name == "model" then cfg.get_model_order v else 999999

/-- The candidate key strings tried by `get_value_replacement`:
`str(value)` first, then the integer form of an integer-valued float, or
the float form of an int. -/
def candidates (v : Value) : List String :=
  strValue v ::
    (match v with
     | .vFloat q => if q.den = 1 then [strValue (.vInt q.num)] else []
     | .vInt n => [strValue (.vInt n) ++ ".0"]
     | .vStr _ => [])

/-- `ConfigManager.get_value_replacement`. -/
def get_value_replacement (cfg : ConfigManager) (col_name : String) (v : Value) : String :=
  match List.lookup col_name cfg.value_replacements with
  | some replacements =>
    match (candidates v).findSome? (fun cand => List.lookup cand replacements) with
    | some r => r
    | none => strValue v
  | none =>
    if col_name == "model" then
      (List.lookup (strValue v) cfg.latex_model_names).getD (strValue v)
    else strValue v

/-- `ConfigManager.get_column_patterns`: the result is the value of the
`suffixes` key when present (`none` models an entry dictionary without a
`suffixes` key). -/
def get_column_patterns (cfg : ConfigManager) (col_name : String) :
    Option (List (String × String)) :=
  match List.lookup col_name cfg.pattern_formatting with
  | some entry => entry
  | none => if col_name == "model" then cfg.model_patterns else some []

/-- `ConfigManager.should_exclude_from_calculations`. -/
def should_exclude_from_calculations (cfg : ConfigManager) (col_name : String)
    (v : Value) : Bool :=
  let genl : Option Bool :=
    if cfg.row_filtering.truthy then
      match cfg.row_filtering.exclude_from_calculations with
      | some efc =>
        match List.lookup col_name efc with
        | some pats => some (pats.any (fun p => matches_pattern (strValue v) p))
        | none => none
      | none => none
    else none
  match genl with
  | some b => b
  | none =>
    if col_name == "model" then
      cfg.ignored_models_in_calculation.contains (strValue v)
    else false

end ConfigManager

/-- A pandas dataframe with a default range index: named columns with
dtypes, and rows as aligned value lists. -/
structure DataFrame where
  columns : List String
  dtypes : List (String × String)
  rows : List (List Value)
deriving Repr, DecidableEq

namespace DataFrame

/-- The cell of a row at a named column. -/
def cell (df : DataFrame) (row : List Value) (c : String) : Value :=
  match df.columns.findIdx? (fun x => x == c) with
  | some i => row.getD i (.vStr "")
  | none => .vStr ""

/-- The values of a named column, top to bottom (`df[col].items()`). -/
def colValues (df : DataFrame) (c : String) : List Value :=
  df.rows.map (fun r => df.cell r c)

/-- The dtype of a named column. -/
def dtype (df : DataFrame) (c : String) : String :=
  (List.lookup c df.dtypes).getD "object"

end DataFrame

/-- One pass of the exclusion loop of `_calculate_min_values` for one
column: clear the mask bit of every row whose value in that column is
excluded from calculations. -/
def maskStep (cfg : ConfigManager) (df : DataFrame) (mask : List Bool) (c : String) :
    List Bool :=
  (mask.zip (df.colValues c)).map
    (fun p => if cfg.should_exclude_from_calculations c p.2 then false else p.1)

/-- The boolean row mask built by `_calculate_min_values`: start all-true,
then run the exclusion pass over every dataframe column. -/
def calcMask (cfg : ConfigManager) (df : DataFrame) : List Bool :=
  df.columns.foldl (maskStep cfg df) (df.rows.map (fun _ => true))

/-- Boolean-mask row selection, `df[mask]`. -/
def filterByMask {α : Type} : List α → List Bool → List α
  | [], _ => []
  | _, [] => []
  | a :: as, b :: bs => if b then a :: filterByMask as bs else filterByMask as bs

/-- The rows of `df_for_mins`: the dataframe rows surviving the mask. -/
def dfForMinsRows (cfg : ConfigManager) (df : DataFrame) : List (List Value) :=
  filterByMask df.rows (calcMask cfg df)

/-- Pandas `Series.min()` on a numeric column: `none` models the NaN
result on an empty series. -/
def seriesMin (vs : List Value) : Option ℚ :=
  match vs.filterMap Value.toRat? with
  | [] => none
  | q :: qs => some (qs.foldl min q)

/-- `LatexFormatter._should_underline_column`: the per-call override map
wins when it has an entry for the column, else the configuration. -/
def should_underline_column (cfg : ConfigManager)
    (ov : Option (List (String × Bool))) (col : String) : Bool :=
  match ov with
  | some m =>
    match List.lookup col m with
    | some b => b
    | none => cfg.get_column_underline col
  | none => cfg.get_column_underline col

/-- `LatexFormatter._calculate_min_values`: for each selected column after
the first with numeric dtype and underlining enabled, the minimum of the
column over the mask-filtered rows. -/
def calculate_min_values (cfg : ConfigManager) (df : DataFrame) (cols : List String)
    (ov : Option (List (String × Bool))) : List (String × Option ℚ) :=
  (cols.drop 1).filterMap (fun c =>
    if (df.dtype c == "float64" || df.dtype c == "int64")
        && should_underline_column cfg ov c then
      some (c, seriesMin ((dfForMinsRows cfg df).map (fun r => df.cell r c)))
    else none)

/-- Python truthiness of an optional format string: `None` and the empty
string are falsy. -/
def truthyStr : Option String → Option String
  | some "" => none
  | o => o

/-- `fmt in ['d','b','o','x','X'] or fmt.endswith('d')`. -/
def isIntFormat (fmt : String) : Bool :=
  fmt == "d" || fmt == "b" || fmt == "o" || fmt == "x" || fmt == "X"
    || "d".data.isSuffixOf fmt.data

/-- Digits of an integer in a given base, sign in front, lowercase. -/
def intBase (b : Nat) (n : Int) : String :=
  (if n < 0 then "-" else "") ++ String.mk (Nat.toDigits b n.natAbs)

/-- Zero-padding of a signed integer to a total width, sign first. -/
def zeroPadInt (w : Nat) (n : Int) : String :=
  let ds := natDigits n.natAbs
  let sign := if n < 0 then "-" else ""
  let total := sign.data.length + ds.data.length
  sign ++ (if total < w then String.mk (List.replicate (w - total) '0') else "") ++ ds

/-- Space-padding of a string to a total width. -/
def spacePad (w : Nat) (s : String) : String :=
  if s.data.length < w then String.mk (List.replicate (w - s.data.length) ' ') ++ s
  else s

/-- `f"{n:{fmt}}"` for an integer, on the modelled subset of Python's
format mini-language: `d`, `b`, `o`, `x`, `X`, and `[0]widthd`; `none`
models the `ValueError`/`TypeError` raised outside the subset. -/
def pyIntFormat (n : Int) (fmt : String) : Option String :=
  if fmt == "d" then some (strValue (.vInt n))
  else if fmt == "b" then some (intBase 2 n)
  else if fmt == "o" then some (intBase 8 n)
  else if fmt == "x" then some (intBase 16 n)
  else if fmt == "X" then some (String.mk ((intBase 16 n).data.map Char.toUpper))
  else
    let body := String.mk (fmt.data.dropLast)
    if fmt.data.getLast? == some 'd' && body.data ≠ [] && body.data.all Char.isDigit then
      if body.data.headD ' ' == '0' then some (zeroPadInt ((body.toNat?).getD 0) n)
      else some (spacePad ((body.toNat?).getD 0) (strValue (.vInt n)))
    else none

/-- `f"{value:{fmt}}"` for a numeric value under a float-style spec, on
the modelled subset (`f` and `.Nf`); `none` models the exception raised
outside the subset. -/
def pyFloatFormat (q : ℚ) (fmt : String) : Option String :=
  if fmt == "f" then some (fixedDecimal q 6)
  else
    let body := String.mk ((fmt.data.drop 1).dropLast)
    if fmt.data.headD ' ' == '.' && fmt.data.getLast? == some 'f'
        && body.data ≠ [] && body.data.all Char.isDigit then
      some (fixedDecimal q ((body.toNat?).getD 0))
    else none

/-- The body of the `try` blocks of `_format_cell_value`: integer-style
specs coerce through `int(value)` first, other specs format the value
itself; `none` models a raised formatting error. -/
def applyNumFormat (fmt : String) (v : Value) : Option String :=
  if isIntFormat fmt then pyIntFormat v.truncInt fmt
  else
    match v.toRat? with
    | some q => pyFloatFormat q fmt
    | none => none

/-- The decoration looked up from the column's suffix patterns against the
current cell's stringified value; first matching suffix wins. -/
def patternDecoration (cfg : ConfigManager) (col : String) (currentValue : String) :
    String :=
  match cfg.get_column_patterns col with
  | some suffixes =>
    match suffixes.find? (fun p => p.1.data.isSuffixOf currentValue.data) with
    | some p => p.2
    | none => ""
  | none => ""

/-- The highlight test of `_format_cell_value`:
`col in min_values and abs(value - min_values[col]) < 1e-10` (a NaN
minimum never compares close). -/
def minMatch (minValues : List (String × Option ℚ)) (col : String) (q : ℚ) : Bool :=
  match List.lookup col minValues with
  | some (some mv) =>
    let dlt := q - mv
    (if dlt < 0 then -dlt else dlt) < mkRat 1 (10 ^ 10)
  | _ => false

/-- Wrap a cell in the LaTeX underline highlight when the flag holds. -/
def underlineIf (b : Bool) (s : String) : String :=
  if b then "\\underline\x7b" ++ s ++ "\x7d" else s

/-- The part of `_format_cell_value` after the value-replacement check:
first-column custom formatting, numeric formatting with pattern
decoration and highlighting, or the plain string fallback. -/
def formatRest (cfg : ConfigManager) (v : Value) (col : String)
    (minValues : List (String × Option ℚ)) (decimalPlaces : Nat)
    (isFirstColumn : Bool) (ov : Option (List (String × Bool))) : String :=
  if isFirstColumn then
    match truthyStr (cfg.get_column_format col) with
    | some fmt =>
      if v.isNumeric then
        match applyNumFormat fmt v with
        | some s =>
          "$" ++
            underlineIf
              (should_underline_column cfg ov col && minMatch minValues col (v.toRat?.getD 0))
              s ++ "$"
        | none => strValue v
      else strValue v
    | none => strValue v
  else if v.isNumeric then
    let q := v.toRat?.getD 0
    let formatted :=
      match truthyStr (cfg.get_column_format col) with
      | some fmt => (applyNumFormat fmt v).getD (fixedDecimal q decimalPlaces)
      | none => fixedDecimal q decimalPlaces
    "$" ++ patternDecoration cfg col (strValue v) ++
      underlineIf (should_underline_column cfg ov col && minMatch minValues col q)
        formatted ++ "$"
  else strValue v

/-- `LatexFormatter._format_cell_value`: value replacement wins when it
differs from the stringified raw value, else the formatting cascade. -/
def format_cell_value (cfg : ConfigManager) (v : Value) (col : String)
    (currentModel : String) (minValues : List (String × Option ℚ))
    (decimalPlaces : Nat) (isFirstColumn : Bool)
    (ov : Option (List (String × Bool))) : String :=
  let _ := currentModel
  let replacement := cfg.get_value_replacement col v
  if replacement != strValue v then replacement
  else formatRest cfg v col minValues decimalPlaces isFirstColumn ov

/-- The largest configured extra-column position. -/
def maxPosition (extras : List ExtraColumn) : Nat :=
  extras.foldl (fun m e => max m e.position) 0

/-- The `while` loop of `_build_table_rows`: as long as some extra column
is configured at the current position, append its value (first match) and
advance; fuelled, with any fuel above the largest position sufficient. -/
def whileExtras (extras : List ExtraColumn) : Nat → Nat → List String
  | _, 0 => []
  | pos, fuel + 1 =>
    match extras.find? (fun e => e.position == pos) with
    | some e => e.value :: whileExtras extras (pos + 1) fuel
    | none => []

/-- All extra-column values inserted starting at a given position. -/
def insertExtras (extras : List ExtraColumn) (pos : Nat) : List String :=
  whileExtras extras pos (maxPosition extras + 1)

/-- The per-row cell loop of `_build_table_rows`: real cells interleaved
with extra columns at matching positions; returns the cells and the final
position counter. -/
def buildRowCellsAux (cfg : ConfigManager) (minValues : List (String × Option ℚ))
    (decimalPlaces : Nat) (ov : Option (List (String × Bool)))
    (currentModel : String) :
    List (String × Value) → Nat → Bool → List String × Nat
  | [], pos, _ => ([], pos)
  | (c, v) :: rest, pos, isFirst =>
    let ins := insertExtras cfg.extra_columns pos
    let pos' := pos + ins.length
    let cell := format_cell_value cfg v c currentModel minValues decimalPlaces isFirst ov
    let r := buildRowCellsAux cfg minValues decimalPlaces ov currentModel rest (pos' + 1) false
    (ins ++ cell :: r.1, r.2)

/-- All rendered cells of one data row, including trailing extra columns
whose position is at or past the final position counter. -/
def buildRowCells (cfg : ConfigManager) (df : DataFrame) (cols : List String)
    (minValues : List (String × Option ℚ)) (decimalPlaces : Nat)
    (ov : Option (List (String × Bool))) (row : List Value) : List String :=
  let currentModel := strValue (df.cell row (cols.headD ""))
  let pairs := cols.map (fun c => (c, df.cell row c))
  let r := buildRowCellsAux cfg minValues decimalPlaces ov currentModel pairs 0 true
  r.1 ++ (cfg.extra_columns.filter (fun e => decide (r.2 ≤ e.position))).map
    (fun e => e.value)

/-- One rendered LaTeX data row. -/
def rowLine (cells : List String) : String :=
  joinSep " & " cells ++ " \\\\\n"

/-- The list of rendered data-row lines of `_build_table_rows`, one per
dataframe row. -/
def build_table_rows_list (cfg : ConfigManager) (df : DataFrame) (cols : List String)
    (minValues : List (String × Option ℚ)) (decimalPlaces : Nat)
    (ov : Option (List (String × Bool))) : List String :=
  df.rows.map (fun row => rowLine (buildRowCells cfg df cols minValues decimalPlaces ov row))

/-- `LatexFormatter._build_table_rows`. -/
def build_table_rows (cfg : ConfigManager) (df : DataFrame) (cols : List String)
    (minValues : List (String × Option ℚ)) (decimalPlaces : Nat)
    (ov : Option (List (String × Bool))) : String :=
  String.join (build_table_rows_list cfg df cols minValues decimalPlaces ov)

/-- Python `list.insert(i, a)` (clamped at the end). -/
def pyInsert {α : Type} : List α → Nat → α → List α
  | l, 0, a => a :: l
  | [], _ + 1, a => [a]
  | x :: xs, n + 1, a => x :: pyInsert xs n a

/-- The header-cell list of `_build_table_headers`: each extra column is
inserted at its position only when that position is strictly below the
current header length. -/
def build_table_headers_list (cfg : ConfigManager) (displayNames : List String) :
    List String :=
  cfg.extra_columns.foldl
    (fun headers e =>
      if e.position < headers.length then pyInsert headers e.position e.display_name
      else headers)
    displayNames

/-- `LatexFormatter._build_table_headers`: bold header cells joined with
column separators. -/
def build_table_headers (cfg : ConfigManager) (displayNames : List String) : String :=
  joinSep " & "
      ((build_table_headers_list cfg displayNames).map
        (fun h => "\\textbf\x7b" ++ h ++ "\x7d")) ++ " \\\\\n\\hline\n"

/-- The column-alignment specifier: one `c` per selected column plus one
per configured extra column. -/
def colSpec (cfg : ConfigManager) (numCols : Nat) : String :=
  String.mk (List.replicate (numCols + cfg.extra_columns.length) 'c')

/-- `LatexFormatter._build_table_header`: the fixed table/tabular opening. -/
def build_table_header (cfg : ConfigManager) (numCols : Nat) : String :=
  "\\begin\x7btable\x7d[t]\n\\centering\n" ++
    "\\caption\x7bYour Caption Here\x7d\n" ++
    "\\begin\x7btabular\x7d\x7b" ++ colSpec cfg numCols ++ "\x7d\n\\hline\n"

/-- `LatexFormatter._build_table_footer`. -/
def build_table_footer : String :=
  "\\hline\n\\end\x7btabular\x7d\n\\end\x7btable\x7d"

/-- `LatexFormatter.generate_latex_table`. -/
def generate_latex_table (cfg : ConfigManager) (df : DataFrame)
    (selectedColumns : List (String × String)) (decimalPlaces : Nat := 4)
    (ov : Option (List (String × Bool)) := none) : String :=
  let cols := selectedColumns.map (fun p => p.1)
  let displayNames := selectedColumns.map (fun p => p.2)
  if cols.isEmpty then "Please select at least one column"
  else
    let minValues := calculate_min_values cfg df cols ov
    build_table_header cfg cols.length ++ build_table_headers cfg displayNames ++
      build_table_rows cfg df cols minValues decimalPlaces ov ++ build_table_footer

/-- Specification-side reading of the exclusion scan: a row is excluded
from calculations exactly when some dataframe column's value matches an
exclude-from-calculations rule. -/
def rowExcludedFromCalculations (cfg : ConfigManager) (df : DataFrame)
    (r : List Value) : Bool :=
  df.columns.any (fun c => cfg.should_exclude_from_calculations c (df.cell r c))

/-- The formatting cascade of `formatRest` with the highlight wrapping
removed: what a column renders as when underlining can never fire. -/
def formatRestNoUnderline (cfg : ConfigManager) (v : Value) (col : String)
    (decimalPlaces : Nat) (isFirstColumn : Bool) : String :=
  if isFirstColumn then
    match truthyStr (cfg.get_column_format col) with
    | some fmt =>
      if v.isNumeric then
        match applyNumFormat fmt v with
        | some s => "$" ++ s ++ "$"
        | none => strValue v
      else strValue v
    | none => strValue v
  else if v.isNumeric then
    let q := v.toRat?.getD 0
    let formatted :=
      match truthyStr (cfg.get_column_format col) with
      | some fmt => (applyNumFormat fmt v).getD (fixedDecimal q decimalPlaces)
      | none => fixedDecimal q decimalPlaces
    "$" ++ patternDecoration cfg col (strValue v) ++ formatted ++ "$"
  else strValue v

/-- The amended prettify fallback: strip the recognized prefixes `data_`,
`model_`, `result_` sequentially in that order, each at most once from the
current remainder (so several may be stripped in one call), then split on
underscores, capitalize each word, and join with spaces. -/
def prettifySequential (col_name : String) : String :=
  let stripped := ["data_", "model_", "result_"].foldl
    (fun cur pre =>
      if pre.data.isPrefixOf cur then cur.drop pre.data.length else cur)
    col_name.data
  joinSep " " ((splitChar '_' stripped).map (fun w => String.mk (pyCapitalize w)))

/-- One exclusion pass over a mask that is a pointwise function of the
rows clears exactly the bits of rows whose value in that column is
excluded. -/
theorem maskStep_map (cfg : ConfigManager) (df : DataFrame)
    (g : List Value → Bool) (c : String) :
    maskStep cfg df (df.rows.map g) c =
      df.rows.map (fun r =>
        if cfg.should_exclude_from_calculations c (df.cell r c) then false else g r) := by
  unfold maskStep DataFrame.colValues
  rw [List.zip_map', List.map_map]
  rfl

/-- Folding the exclusion pass over a column list computes, rowwise, the
conjunction of the initial bit with "no listed column excludes the row". -/
theorem foldl_maskStep (cfg : ConfigManager) (df : DataFrame)
    (cols : List String) (g : List Value → Bool) :
    cols.foldl (maskStep cfg df) (df.rows.map g) =
      df.rows.map (fun r =>
        g r && !(cols.any (fun c => cfg.should_exclude_from_calculations c (df.cell r c)))) := by
  induction cols generalizing g with
  | nil => simp
  | cons c cs ih =>
    rw [List.foldl_cons, maskStep_map cfg df g c,
      ih (fun r => if cfg.should_exclude_from_calculations c (df.cell r c) then false else g r)]
    congr 1
    funext r
    by_cases h : cfg.should_exclude_from_calculations c (df.cell r c) = true <;>
      simp [h, List.any_cons]

/-- The mask built by the nested exclusion loop is exactly the rowwise
negation of `rowExcludedFromCalculations`. -/
theorem calcMask_eq (cfg : ConfigManager) (df : DataFrame) :
    calcMask cfg df = df.rows.map (fun r => !(rowExcludedFromCalculations cfg df r)) := by
  unfold calcMask
  rw [foldl_maskStep cfg df df.columns (fun _ => true)]
  simp [rowExcludedFromCalculations]

/-- Selecting by a mask that is the pointwise image of a predicate is
filtering by that predicate. -/
theorem filterByMask_map {α : Type} (l : List α) (p : α → Bool) :
    filterByMask l (l.map p) = l.filter p := by
  induction l with
  | nil => rfl
  | cons a as ih =>
    by_cases h : p a = true <;> simp [filterByMask, h, ih, List.filter_cons]

/-- `df_for_mins` holds exactly the rows not excluded from calculations. -/
theorem dfForMinsRows_eq (cfg : ConfigManager) (df : DataFrame) :
    dfForMinsRows cfg df =
      df.rows.filter (fun r => !(rowExcludedFromCalculations cfg df r)) := by
  unfold dfForMinsRows
  rw [calcMask_eq, filterByMask_map]

/-- Looking up a column in the computed minimum map: any listed non-first
column of numeric dtype with underlining enabled is present, mapped to the
minimum of the mask-filtered column. -/
theorem lookup_filterMap_minEntries (cfg : ConfigManager) (df : DataFrame)
    (ov : Option (List (String × Bool))) (l : List String) (col : String)
    (hmem : col ∈ l)
    (hcond : ((df.dtype col == "float64" || df.dtype col == "int64")
      && should_underline_column cfg ov col) = true) :
    List.lookup col (l.filterMap (fun c =>
        if ((df.dtype c == "float64" || df.dtype c == "int64")
            && should_underline_column cfg ov c) = true then
          some (c, seriesMin ((dfForMinsRows cfg df).map (fun r => df.cell r c)))
        else none)) =
      some (seriesMin ((dfForMinsRows cfg df).map (fun r => df.cell r col))) := by
  induction l with
  | nil => cases hmem
  | cons c cs ih =>
    rw [List.filterMap_cons]
    by_cases hc : c = col
    · subst hc
      rw [if_pos hcond]
      simp [List.lookup]
    · have hne : (col == c) = false := by
        simp only [beq_eq_false_iff_ne, ne_eq]
        exact fun h => hc h.symm
      have hmem' : col ∈ cs := by
        rcases List.mem_cons.mp hmem with h | h
        · exact absurd h.symm hc
        · exact h
      by_cases hcnd : ((df.dtype c == "float64" || df.dtype c == "int64")
          && should_underline_column cfg ov c) = true
      · rw [if_pos hcnd]
        simpa [List.lookup, hne] using ih hmem'
      · rw [if_neg hcnd]
        exact ih hmem'

/-- Looking up a column in the computed minimum map: any listed non-first
column of numeric dtype with underlining enabled is present, mapped to the
minimum of the mask-filtered column. -/
theorem lookup_calculate_min_values (cfg : ConfigManager) (df : DataFrame)
    (ov : Option (List (String × Bool))) (cols : List String) (col : String)
    (hmem : col ∈ cols.drop 1)
    (hcond : ((df.dtype col == "float64" || df.dtype col == "int64")
      && should_underline_column cfg ov col) = true) :
    List.lookup col (calculate_min_values cfg df cols ov) =
      some (seriesMin ((dfForMinsRows cfg df).map (fun r => df.cell r col))) := by
  unfold calculate_min_values
  exact lookup_filterMap_minEntries cfg df ov (cols.drop 1) col hmem hcond

/-! ## Concrete configurations and tables used by witnesses -/

/-- Configuration excluding `old*` models from calculations and
underlining the `score` column. -/
def cfgC1 : ConfigManager :=
  { row_filtering := ⟨some [], some [("model", ["old*"])], false⟩,
    column_underline := [("score", true)] }

/-- A three-row table whose global `score` minimum sits on an excluded
row. -/
def dfC1 : DataFrame :=
  ⟨["model", "score"], [("model", "object"), ("score", "float64")],
    [[.vStr "a", .vFloat (mkRat 1 2)], [.vStr "b", .vFloat (mkRat 3 10)],
     [.vStr "old-c", .vFloat (mkRat 1 10)]]⟩

/-- Configuration with a single value replacement on the `model` column. -/
def cfgC2 : ConfigManager :=
  { value_replacements := [("model", [("gpt4", "GPT-4")])] }

/-- Replacement map shared by the two sides of the legacy round-trip. -/
def replC4 : List (String × String) := [("2022", "Year 1")]

/-- Year replacement keyed by the integer string form. -/
def cfgC5a : ConfigManager :=
  { value_replacements := [("year", [("2022", "Year 1")])] }

/-- Year replacement keyed by the float string form. -/
def cfgC5b : ConfigManager :=
  { value_replacements := [("year", [("2022.0", "Y2K")])] }

/-- Configuration with one extra column at position 5. -/
def cfgC6 : ConfigManager :=
  { extra_columns := [⟨5, "Check", "\\checkmark"⟩] }

/-- A one-row, two-column table. -/
def dfC6 : DataFrame :=
  ⟨["model", "score"], [("model", "object"), ("score", "float64")],
    [[.vStr "a", .vFloat (mkRat 1 2)]]⟩

/-- Configuration assigning the `score` column an invalid numeric format. -/
def cfgC7 : ConfigManager := { column_formats := [("score", "q")] }

/-- Configuration disabling underlining for the `score` column. -/
def cfgC8 : ConfigManager := { column_underline := [("score", false)] }

/-- Configuration whose `column_underline` has only a `default: true`
entry and whose user file omits `underline_min_values`. -/
def cfgC9 : ConfigManager := { column_underline := [("default", true)] }

/-- Configuration mapping the string `0.5` to itself (an identity
replacement). -/
def cfgC10 : ConfigManager :=
  { value_replacements := [("score", [("0.5", "0.5")])] }

/-! ## Claims -/

/-- C1: every row matched by a declarative exclude-from-calculations rule
still appears as a rendered data row of `generate_latex_table` (the output
carries exactly one rendered line per dataframe row), and for every
underlined numeric non-leading column the minimum stored for highlighting
is the minimum taken over only the rows not excluded from calculations. -/
theorem c1_excluded_rows_shown_not_counted (cfg : ConfigManager) (df : DataFrame)
    (selectedColumns : List (String × String)) (d : Nat)
    (ov : Option (List (String × Bool))) (col : String)
    (hsel : selectedColumns ≠ [])
    (hmem : col ∈ (selectedColumns.map (fun p => p.1)).drop 1)
    (hdt : df.dtype col = "float64" ∨ df.dtype col = "int64")
    (hul : should_underline_column cfg ov col = true) :
    (generate_latex_table cfg df selectedColumns d ov =
        build_table_header cfg (selectedColumns.map (fun p => p.1)).length ++
          build_table_headers cfg (selectedColumns.map (fun p => p.2)) ++
          String.join (build_table_rows_list cfg df (selectedColumns.map (fun p => p.1))
            (calculate_min_values cfg df (selectedColumns.map (fun p => p.1)) ov) d ov) ++
          build_table_footer) ∧
    (build_table_rows_list cfg df (selectedColumns.map (fun p => p.1))
        (calculate_min_values cfg df (selectedColumns.map (fun p => p.1)) ov) d ov).length =
      df.rows.length ∧
    (∀ r ∈ df.rows,
      rowLine (buildRowCells cfg df (selectedColumns.map (fun p => p.1))
          (calculate_min_values cfg df (selectedColumns.map (fun p => p.1)) ov) d ov r) ∈
        build_table_rows_list cfg df (selectedColumns.map (fun p => p.1))
          (calculate_min_values cfg df (selectedColumns.map (fun p => p.1)) ov) d ov) ∧
    List.lookup col (calculate_min_values cfg df (selectedColumns.map (fun p => p.1)) ov) =
      some (seriesMin ((df.rows.filter
        (fun r => !(rowExcludedFromCalculations cfg df r))).map (fun r => df.cell r col))) := by
  obtain ⟨p, rest, rfl⟩ := List.exists_cons_of_ne_nil hsel
  refine ⟨rfl, by simp [build_table_rows_list], ?_, ?_⟩
  · intro r hr
    exact List.mem_map_of_mem _ hr
  · have hcond : ((df.dtype col == "float64" || df.dtype col == "int64")
        && should_underline_column cfg ov col) = true := by
      rcases hdt with h | h <;> simp [h, hul]
    rw [lookup_calculate_min_values cfg df ov _ col hmem hcond, dfForMinsRows_eq]

/-- C1 witness: in `dfC1` the excluded row `old-c` holds the global
minimum `0.1`, yet the stored `score` minimum is `0.3`, the minimum over
the two non-excluded rows, and all three rows are rendered. -/
theorem c1_witness :
    (([("model", "Model"), ("score", "Score")] : List (String × String)) ≠ [] ∧
      "score" ∈ (([("model", "Model"), ("score", "Score")].map
        (fun p : String × String => p.1)).drop 1) ∧
      (dfC1.dtype "score" = "float64" ∨ dfC1.dtype "score" = "int64") ∧
      should_underline_column cfgC1 none "score" = true) ∧
    List.lookup "score" (calculate_min_values cfgC1 dfC1
        ([("model", "Model"), ("score", "Score")].map (fun p => p.1)) none) =
      some (seriesMin ((dfC1.rows.filter
        (fun r => !(rowExcludedFromCalculations cfgC1 dfC1 r))).map
          (fun r => dfC1.cell r "score"))) ∧
    seriesMin ((dfC1.rows.filter
        (fun r => !(rowExcludedFromCalculations cfgC1 dfC1 r))).map
          (fun r => dfC1.cell r "score")) = some (mkRat 3 10) ∧
    seriesMin (dfC1.rows.map (fun r => dfC1.cell r "score")) = some (mkRat 1 10) ∧
    (build_table_rows_list cfgC1 dfC1 ["model", "score"]
        (calculate_min_values cfgC1 dfC1 ["model", "score"] none) 2 none).length = 3 :=
  ⟨⟨by decide, by decide, by decide, by decide⟩,
    (c1_excluded_rows_shown_not_counted cfgC1 dfC1 _ 2 none "score"
      (by decide) (by decide) (by decide) (by decide)).2.2.2,
    by decide, by decide,
    by simpa using (c1_excluded_rows_shown_not_counted cfgC1 dfC1
      [("model", "Model"), ("score", "Score")] 2 none "score"
      (by decide) (by decide) (by decide) (by decide)).2.1⟩

/-- C2: whenever value replacement fires (the replacement differs from the
stringified raw value), `_format_cell_value` returns the replacement
verbatim — no math-mode wrapping, no underline markup, no numeric
formatting, no pattern decoration. -/
theorem c2_replacement_verbatim (cfg : ConfigManager) (v : Value)
    (col currentModel : String) (minValues : List (String × Option ℚ))
    (d : Nat) (isF : Bool) (ov : Option (List (String × Bool)))
    (h : cfg.get_value_replacement col v ≠ strValue v) :
    format_cell_value cfg v col currentModel minValues d isF ov =
      cfg.get_value_replacement col v := by
  simp [format_cell_value, h]

/-- C2 witness: the `gpt4 → GPT-4` replacement fires and is returned
verbatim. -/
theorem c2_witness :
    cfgC2.get_value_replacement "model" (.vStr "gpt4") ≠ strValue (.vStr "gpt4") ∧
    format_cell_value cfgC2 (.vStr "gpt4") "model" "gpt4" [] 4 true none =
      cfgC2.get_value_replacement "model" (.vStr "gpt4") :=
  ⟨by decide, c2_replacement_verbatim cfgC2 _ _ _ _ _ _ _ (by decide)⟩

/-- C3 counterexample: the fallback loop has no break, so
`data_model_name` loses both the `data_` and the `model_` prefixes and
prettifies to `Name`, not `Model Name` as the claim states. -/
theorem c3_counterexample :
    ConfigManager.get_pretty_column_name {} "data_model_name" = "Name" ∧
    ("Name" : String) ≠ "Model Name" :=
  ⟨by decide, by decide⟩

/-- C3 amended: with no configured display name, the fallback strips the
recognized prefixes sequentially in the order `data_`, `model_`,
`result_`, each at most once from the current remainder (so several can be
stripped), then splits on underscores, capitalizes each word and joins
with spaces; `data_model_name` therefore yields `Name`. -/
theorem c3_sequential_prefix_strip (cfg : ConfigManager) (col : String)
    (h : List.lookup col cfg.display_names = none) :
    cfg.get_pretty_column_name col = prettifySequential col := by
  simp [ConfigManager.get_pretty_column_name, prettifySequential, h]

/-- C3 witness: the amended fallback applied to `data_model_name` gives
`Name`. -/
theorem c3_witness :
    List.lookup "data_model_name" ({} : ConfigManager).display_names = none ∧
    ConfigManager.get_pretty_column_name {} "data_model_name" =
      prettifySequential "data_model_name" ∧
    prettifySequential "data_model_name" = "Name" :=
  ⟨by decide, c3_sequential_prefix_strip {} "data_model_name" (by decide), by decide⟩

/-- C4 counterexample: for the float value `2022.0` the generalized
configuration finds the `2022` candidate, but the legacy
`latex_model_names` path looks up only `str(value) = "2022.0"`, so the two
sides of the round-trip disagree on numeric values. -/
theorem c4_counterexample :
    ({ value_replacements := [("model", replC4)] } : ConfigManager).get_value_replacement
        "model" (.vFloat 2022) = "Year 1" ∧
    ({ latex_model_names := replC4 } : ConfigManager).get_value_replacement
        "model" (.vFloat 2022) = "2022.0" ∧
    ("Year 1" : String) ≠ "2022.0" :=
  ⟨by decide, by decide, by decide⟩

/-- C4 amended: the `get_sort_order` round-trip holds for every value, and
the `get_value_replacement` round-trip holds for every string value (the
generalized path additionally tries integer/float string forms, so numeric
values may differ); in both accessors a generalized entry for the exact
column makes the legacy `model` configuration irrelevant. -/
theorem c4_legacy_generalized_roundtrip :
    (∀ (m : List (String × Int)) (v : Value),
      ({ model_order := m } : ConfigManager).get_sort_order "model" v =
        ({ row_sorting := ⟨some [("model", m)], true⟩ } : ConfigManager).get_sort_order
          "model" v) ∧
    (∀ (r : List (String × String)) (s : String),
      ({ latex_model_names := r } : ConfigManager).get_value_replacement "model" (.vStr s) =
        ({ value_replacements := [("model", r)] } : ConfigManager).get_value_replacement
          "model" (.vStr s)) ∧
    (∀ (so : List (String × Int)) (rest : List (String × List (String × Int)))
        (m : List (String × Int)) (v : Value),
      ({ row_sorting := ⟨some (("model", so) :: rest), true⟩,
          model_order := m } : ConfigManager).get_sort_order "model" v =
        ({ row_sorting := ⟨some (("model", so) :: rest), true⟩ } : ConfigManager).get_sort_order
          "model" v) ∧
    (∀ (r : List (String × String)) (vrest : List (String × List (String × String)))
        (lm : List (String × String)) (v : Value),
      ({ value_replacements := ("model", r) :: vrest,
          latex_model_names := lm } : ConfigManager).get_value_replacement "model" v =
        ({ value_replacements := ("model", r) :: vrest } : ConfigManager).get_value_replacement
          "model" v) :=
  ⟨fun m v => rfl,
    fun r s => by
      cases h : List.lookup s r with
      | none =>
        simp [ConfigManager.get_value_replacement, ConfigManager.candidates,
          strValue, List.lookup, h]
      | some x =>
        simp [ConfigManager.get_value_replacement, ConfigManager.candidates,
          strValue, List.lookup, h],
    fun so rest m v => rfl, fun r vrest lm v => rfl⟩

/-- C5: an integer-valued float cell matches a replacement keyed by the
integer string form and renders as the replacement verbatim with no
math-mode wrapping; symmetrically, an int cell matches a key in float
string form. -/
theorem c5_numeric_candidate_forms :
    cfgC5a.get_value_replacement "year" (.vFloat 2022) = "Year 1" ∧
    format_cell_value cfgC5a (.vFloat 2022) "year" "m" [] 4 false none = "Year 1" ∧
    cfgC5b.get_value_replacement "year" (.vInt 2022) = "Y2K" :=
  ⟨by decide, by decide, by decide⟩

/-- C6 (code bug): an extra column whose position exceeds the header
length contributes no header cell (`_build_table_headers` only inserts at
positions strictly below the current length), while the alignment
specifier counts it and every data row appends it; at the failing input
the header has 2 cells but the colspec has 3 `c`s and each row 3 cells. -/
theorem c6_header_omits_out_of_range_extra :
    (build_table_headers_list cfgC6 ["Model", "Score"]).length = 2 ∧
    (colSpec cfgC6 2).data.length = 3 ∧
    (buildRowCells cfgC6 dfC6 ["model", "score"] [] 4 none
      [.vStr "a", .vFloat (mkRat 1 2)]).length = 3 :=
  ⟨by decide, by decide, by decide⟩

/-- C7: for a non-leading numeric cell with a configured format, a format
application failure silently falls back to fixed-decimal formatting at the
given decimal-places count; the render still produces the decorated,
possibly highlighted, math-wrapped cell. -/
theorem c7_format_failure_falls_back (cfg : ConfigManager) (v : Value)
    (col currentModel : String) (minValues : List (String × Option ℚ))
    (d : Nat) (ov : Option (List (String × Bool))) (q : ℚ) (fmt : String)
    (hrep : cfg.get_value_replacement col v = strValue v)
    (hq : v.toRat? = some q)
    (hfmt : truthyStr (cfg.get_column_format col) = some fmt)
    (hfail : applyNumFormat fmt v = none) :
    format_cell_value cfg v col currentModel minValues d false ov =
      "$" ++ patternDecoration cfg col (strValue v) ++
        underlineIf (should_underline_column cfg ov col && minMatch minValues col q)
          (fixedDecimal q d) ++ "$" := by
  have hnum : v.isNumeric = true := by
    cases v <;> simp_all [Value.toRat?, Value.isNumeric]
  have hget : v.toRat?.getD 0 = q := by rw [hq]; rfl
  simp [format_cell_value, hrep, formatRest, hnum, hfmt, hfail, hget]

/-- C7 witness: the invalid format `q` on the `score` column fails to
apply and the cell falls back to two-decimal fixed formatting. -/
theorem c7_witness :
    cfgC7.get_value_replacement "score" (.vFloat (mkRat 1 4)) = strValue (.vFloat (mkRat 1 4)) ∧
    (Value.vFloat (mkRat 1 4)).toRat? = some (mkRat 1 4) ∧
    truthyStr (cfgC7.get_column_format "score") = some "q" ∧
    applyNumFormat "q" (.vFloat (mkRat 1 4)) = none ∧
    format_cell_value cfgC7 (.vFloat (mkRat 1 4)) "score" "m" [] 2 false none =
      "$" ++ patternDecoration cfgC7 "score" (strValue (.vFloat (mkRat 1 4))) ++
        underlineIf (should_underline_column cfgC7 none "score" && minMatch [] "score" (mkRat 1 4))
          (fixedDecimal (mkRat 1 4) 2) ++ "$" :=
  ⟨by decide, by decide, by decide, by decide,
    c7_format_failure_falls_back cfgC7 (.vFloat (mkRat 1 4)) "score" "m" [] 2 none
      (mkRat 1 4) "q" (by decide) (by decide) (by decide) (by decide)⟩

/-- C8: when underlining resolves to disabled for a column (override map
first, else configuration), no cell of that column is ever wrapped in the
underline markup — the cell renders exactly as the underline-free cascade,
even when its value equals the column minimum. -/
theorem c8_no_underline_when_disabled (cfg : ConfigManager) (v : Value)
    (col currentModel : String) (minValues : List (String × Option ℚ))
    (d : Nat) (isF : Bool) (ov : Option (List (String × Bool)))
    (h : should_underline_column cfg ov col = false) :
    format_cell_value cfg v col currentModel minValues d isF ov =
      (if cfg.get_value_replacement col v != strValue v then
        cfg.get_value_replacement col v
      else formatRestNoUnderline cfg v col d isF) := by
  have hrest : formatRest cfg v col minValues d isF ov =
      formatRestNoUnderline cfg v col d isF := by
    unfold formatRest formatRestNoUnderline
    rw [h]
    simp [underlineIf]
  simp only [format_cell_value, hrest]

/-- C8 witness: with underlining disabled on `score`, the cell holding the
exact column minimum still renders without underline markup. -/
theorem c8_witness :
    should_underline_column cfgC8 none "score" = false ∧
    format_cell_value cfgC8 (.vFloat (mkRat 3 10)) "score" "m" [("score", some (mkRat 3 10))] 2
        false none =
      (if cfgC8.get_value_replacement "score" (.vFloat (mkRat 3 10)) != strValue (.vFloat (mkRat 3 10))
      then cfgC8.get_value_replacement "score" (.vFloat (mkRat 3 10))
      else formatRestNoUnderline cfgC8 (.vFloat (mkRat 3 10)) "score" 2 false) :=
  ⟨by decide, c8_no_underline_when_disabled cfgC8 _ _ _ _ _ _ _ (by decide)⟩

/-- C9: `get_column_underline` reaches the `default` entry only when
`underline_min_values` resolves to null; for a column with no explicit
entry the result equals the resolved `underline_min_values` boolean, and
with the key absent from the user file the hard-coded `False` applies, so
a configured `default: true` is ignored. -/
theorem c9_default_entry_dead (cfg : ConfigManager) (col : String) (b : Bool)
    (h : List.lookup col cfg.column_underline = none) :
    (cfg.underline_min_values = some b → cfg.get_column_underline col = b) ∧
    (cfg.user_underline_min_values = none → cfg.get_column_underline col = false) := by
  constructor
  · intro hb
    simp [ConfigManager.get_column_underline, h, hb]
  · intro hu
    have hres : cfg.underline_min_values = some false := by
      simp [ConfigManager.underline_min_values, hu]
    simp [ConfigManager.get_column_underline, h, hres]

/-- C9 witness: with only a `default: true` entry and no user
`underline_min_values`, the column `score` resolves to `false`. -/
theorem c9_witness :
    List.lookup "score" cfgC9.column_underline = none ∧
    cfgC9.get_column_underline "score" = false :=
  ⟨by decide, (c9_default_entry_dead cfgC9 "score" false (by decide)).2 (by rfl)⟩

/-- C10: an identity replacement entry (stringified value mapped to
itself) is invisible to the formatter: `get_value_replacement` returns the
stringified value, so the cell falls through to the full formatting
cascade instead of being returned verbatim. -/
theorem c10_identity_replacement_falls_through (cfg : ConfigManager)
    (reps : List (String × String)) (v : Value) (col currentModel : String)
    (minValues : List (String × Option ℚ)) (d : Nat) (isF : Bool)
    (ov : Option (List (String × Bool)))
    (hcol : List.lookup col cfg.value_replacements = some reps)
    (hid : List.lookup (strValue v) reps = some (strValue v)) :
    cfg.get_value_replacement col v = strValue v ∧
    format_cell_value cfg v col currentModel minValues d isF ov =
      formatRest cfg v col minValues d isF ov := by
  have hrep : cfg.get_value_replacement col v = strValue v := by
    simp [ConfigManager.get_value_replacement, hcol, ConfigManager.candidates,
      List.findSome?_cons, hid]
  exact ⟨hrep, by simp [format_cell_value, hrep]⟩

/-- C10 witness: the identity entry `0.5 → 0.5` leaves the float `0.5` to
numeric formatting (rendered math-wrapped), detected as no replacement. -/
theorem c10_witness :
    List.lookup "score" cfgC10.value_replacements = some [("0.5", "0.5")] ∧
    List.lookup (strValue (.vFloat (mkRat 1 2))) [("0.5", "0.5")] =
      some (strValue (.vFloat (mkRat 1 2))) ∧
    (cfgC10.get_value_replacement "score" (.vFloat (mkRat 1 2)) = strValue (.vFloat (mkRat 1 2)) ∧
      format_cell_value cfgC10 (.vFloat (mkRat 1 2)) "score" "m" [] 4 false none =
        formatRest cfgC10 (.vFloat (mkRat 1 2)) "score" [] 4 false none) ∧
    formatRest cfgC10 (.vFloat (mkRat 1 2)) "score" [] 4 false none = "$0.5000$" :=
  ⟨by decide, by decide,
    c10_identity_replacement_falls_through cfgC10 [("0.5", "0.5")]
      (.vFloat (mkRat 1 2)) "score" "m" [] 4 false none (by decide) (by decide),
    by decide⟩

end Csv2Latex
